import Mathlib

/-!
Shallow embedding of the coffee-shop backend (`src/backend/server.py`):
the in-memory record store (`InMemoryDB` / `InMemoryCollection` /
`InMemoryCursor`) and the HTTP resource handlers built on top of it
(`get_menu`, `create_order`, `get_order`, `startup_event`,
`chat_with_agent`, `search_and_summarize`).

Records are schema-less mappings of field name to value; we model a
record as an association list `List (String × Val)` whose lookup takes
the first binding (Python dicts have unique keys, so the translation is
faithful on every record the code builds). Prices and quantities are
modelled as exact rationals/integers: every claim compares the stored
value with the very product the code computes, so no rounding question
arises.
-/

/-- A JSON-ish field value stored in a record. -/
inductive Val where
  | str (s : String)
  | num (q : ℚ)
  | bool (b : Bool)
  | null
deriving DecidableEq, Repr

/-- A schema-less record: a mapping of field name to value
(Python `dict`), with unique keys. -/
abbrev Record := List (String × Val)

/-- Field access `item[key]` / `key in item`: the value bound to `key`,
if any. -/
def Record.get (r : Record) (key : String) : Option Val :=
  (r.find? (fun kv => kv.1 = key)).map (·.2)

/-- `InMemoryCollection._matches_query`: every field of `query` must be
present in `item` with an equal value (`key not in item or
item[key] != value` fails the match). -/
def matchesQuery (item : Record) (query : Record) : Bool :=
  query.all (fun kv =>
    match item.get kv.1 with
    | some v => v == kv.2
    | none => false)

/-- `InMemoryCollection.find`: with no query, the whole backing list;
with a query, the records matching it, in original insertion order
(the Python loop appends matches in order, i.e. a filter). The result
is the data handed to the returned `InMemoryCursor`. -/
def InMemoryCollection.find (data : List Record) (query : Option Record) : List Record :=
  match query with
  | none => data
  | some q => data.filter (fun item => matchesQuery item q)

/-- `InMemoryCollection.find_one`: the first record of the backing list
matching the query, or `None`. -/
def InMemoryCollection.find_one (data : List Record) (query : Record) : Option Record :=
  data.find? (fun item => matchesQuery item query)

/-- `InMemoryCollection.count_documents`: number of matches, or the
collection size when the query is `None`. -/
def InMemoryCollection.count_documents (data : List Record) (query : Option Record) : Nat :=
  match query with
  | none => data.length
  | some q => (data.filter (fun item => matchesQuery item q)).length

/-- `InMemoryCursor.to_list(length=None)`: Python evaluates
`self.data[:length] if length else self.data`, so both `None` and `0`
are falsy and return the whole list; a nonzero length truncates. -/
def InMemoryCursor.to_list (data : List Record) (length : Option Nat) : List Record :=
  match length with
  | none => data
  | some n => if n ≠ 0 then data.take n else data

/-- The three named collections `InMemoryDB.__init__` creates. -/
inductive CollName where
  | menu
  | orders
  | status_checks
deriving DecidableEq, Repr

/-- `InMemoryDB`: the process-wide store, one backing list per
collection. -/
structure InMemoryDB where
  menu : List Record
  orders : List Record
  status_checks : List Record
deriving DecidableEq, Repr

/-- `InMemoryDB.get_collection`: the backing list of a named
collection. -/
def InMemoryDB.get_collection (db : InMemoryDB) : CollName → List Record
  | .menu => db.menu
  | .orders => db.orders
  | .status_checks => db.status_checks

/-- Replace the backing list of one named collection. -/
def InMemoryDB.set_collection (db : InMemoryDB) : CollName → List Record → InMemoryDB
  | .menu, l => { db with menu := l }
  | .orders, l => { db with orders := l }
  | .status_checks, l => { db with status_checks := l }

/-- `InMemoryCollection.insert_one` on a named collection of the store:
append the document to the end of the backing list and return the
inserted id (`document.get('id')`), with no duplicate-id check. -/
def InMemoryDB.insert_one (db : InMemoryDB) (c : CollName) (doc : Record) :
    InMemoryDB × Option Val :=
  (db.set_collection c (db.get_collection c ++ [doc]), doc.get "id")

/-- `InMemoryCollection.insert_many` on a named collection of the store:
append all documents in order and return their ids in order. -/
def InMemoryDB.insert_many (db : InMemoryDB) (c : CollName) (docs : List Record) :
    InMemoryDB × List (Option Val) :=
  (db.set_collection c (db.get_collection c ++ docs), docs.map (fun d => d.get "id"))

example :
    InMemoryCollection.find_one
      [[("id", Val.str "a"), ("available", Val.bool false)],
       [("id", Val.str "a"), ("available", Val.bool true)]]
      [("id", Val.str "a"), ("available", Val.bool true)] =
    some [("id", Val.str "a"), ("available", Val.bool true)] := by decide

example :
    InMemoryCursor.to_list [[("id", Val.str "x")]] (some 0) = [[("id", Val.str "x")]] := by
  decide

/-- Client-visible HTTP errors raised by the CRUD handlers
(`HTTPException` status 404 / 500). -/
inductive HTTPErr where
  | notFound (detail : String)
  | internal (detail : String)
deriving DecidableEq, Repr

/-- `OrderCreate`: the validated body of `POST /orders`. -/
structure OrderCreate where
  customer_name : String
  coffee_id : String
  quantity : ℤ
deriving DecidableEq, Repr

/-- `create_order` (`POST /orders`): look up the referenced menu item by
id with `available == True`; on a miss raise 404 and write nothing.
Otherwise build the order record — snapshotting the item's name and
`price * quantity` — append it to the orders collection, and return it.
`newId` and `ts` stand for the generated `uuid4` id and `utcnow`
timestamp. A menu item whose `price`/`name` fields are not a
number/string makes the arithmetic or the `Order(**...)` validation
raise before any write, surfacing as the generic 500. -/
def create_order (db : InMemoryDB) (newId : String) (ts : Val) (oc : OrderCreate) :
    Except HTTPErr Record × InMemoryDB :=
  match InMemoryCollection.find_one db.menu
      [("id", Val.str oc.coffee_id), ("available", Val.bool true)] with
  | none => (.error (.notFound "Coffee item not found or unavailable"), db)
  | some coffee_item =>
    match coffee_item.get "price", coffee_item.get "name" with
    | some (.num p), some (.str nm) =>
      let order : Record :=
        [("id", Val.str newId),
         ("customer_name", Val.str oc.customer_name),
         ("coffee_id", Val.str oc.coffee_id),
         ("coffee_name", Val.str nm),
         ("quantity", Val.num (oc.quantity : ℚ)),
         ("total_price", Val.num (p * (oc.quantity : ℚ))),
         ("timestamp", ts),
         ("status", Val.str "pending")]
      (.ok order, (db.insert_one .orders order).1)
    | _, _ => (.error (.internal "Failed to create order"), db)

/-- `get_order` (`GET /orders/{order_id}`): first orders record whose
`id` equals the path parameter, or 404. -/
def get_order (db : InMemoryDB) (order_id : String) : Except HTTPErr Record :=
  match InMemoryCollection.find_one db.orders [("id", Val.str order_id)] with
  | none => .error (.notFound "Order not found")
  | some o => .ok o

/-- The fixed five-item catalog `startup_event` seeds, parameterized by
the five generated `uuid4` id strings. -/
def sample_menu (i1 i2 i3 i4 i5 : String) : List Record :=
  [[("id", Val.str i1),
    ("name", Val.str "Ethiopian Yirgacheffe"),
    ("origin", Val.str "Yirgacheffe, Ethiopia"),
    ("description", Val.str "Bright and floral with notes of lemon and tea-like qualities"),
    ("price", Val.num (9 / 2)),
    ("available", Val.bool true)],
   [("id", Val.str i2),
    ("name", Val.str "Colombian Supremo"),
    ("origin", Val.str "Huila, Colombia"),
    ("description", Val.str "Medium body with chocolate and nutty undertones"),
    ("price", Val.num (17 / 4)),
    ("available", Val.bool true)],
   [("id", Val.str i3),
    ("name", Val.str "Guatemalan Antigua"),
    ("origin", Val.str "Antigua, Guatemala"),
    ("description", Val.str "Full-bodied with smoky, spicy notes and bright acidity"),
    ("price", Val.num (19 / 4)),
    ("available", Val.bool true)],
   [("id", Val.str i4),
    ("name", Val.str "Kenya AA"),
    ("origin", Val.str "Central Kenya"),
    ("description", Val.str "Wine-like acidity with blackcurrant and citrus notes"),
    ("price", Val.num 5),
    ("available", Val.bool true)],
   [("id", Val.str i5),
    ("name", Val.str "Brazil Santos"),
    ("origin", Val.str "São Paulo, Brazil"),
    ("description", Val.str "Smooth and balanced with chocolate and caramel sweetness"),
    ("price", Val.num 4),
    ("available", Val.bool true)]]

/-- The menu-seeding part of `startup_event`: count the menu collection
with the empty query; if the count is zero, `insert_many` the fixed
five-item catalog, otherwise do nothing. -/
def startup_event (db : InMemoryDB) (i1 i2 i3 i4 i5 : String) : InMemoryDB :=
  if InMemoryCollection.count_documents db.menu (some []) = 0 then
    (db.insert_many .menu (sample_menu i1 i2 i3 i4 i5)).1
  else db

example :
    (startup_event ⟨[], [], []⟩ "a" "b" "c" "d" "e").menu.length = 5 := by decide

/-- The result the Agent Delegate's `execute` reports (`AgentResponse`
from the external library): success flag, content, free-form metadata,
optional error string. -/
structure AgentResult where
  success : Bool
  content : String
  metadata : List (String × Val)
  error : Option String
deriving Repr

/-- One agent instance as the handlers see it: `execute(message)` and
`execute(prompt, use_tools=True)` either return an `AgentResult` or
raise (modelled as `Except` with the exception's string), plus
`get_capabilities()`. -/
structure AgentBehavior where
  execPlain : Except String AgentResult
  execTools : Except String AgentResult
  capabilities : List String
deriving Repr

/-- `ChatRequest`: body of `POST /chat`. -/
structure ChatRequest where
  message : String
  agent_type : String
  context : Option Record
deriving Repr

/-- `ChatResponse`: body of the `POST /chat` 200 response. -/
structure ChatResponse where
  success : Bool
  response : String
  agent_type : String
  capabilities : List String
  metadata : List (String × Val)
  error : Option String
deriving Repr

/-- `SearchRequest`: body of `POST /search`. -/
structure SearchRequest where
  query : String
  max_results : ℤ
deriving Repr

/-- `SearchResponse`: body of the `POST /search` 200 response. -/
structure SearchResponse where
  success : Bool
  query : String
  summary : String
  search_results : Option (List (String × Val))
  sources_count : ℚ
  error : Option String
deriving Repr

/-- The `except Exception` fallback body of `chat_with_agent`:
`ChatResponse(success=False, response="", agent_type=...,
capabilities=[], error=str(e))`. -/
def failChat (req : ChatRequest) (e : String) : ChatResponse :=
  { success := false, response := "", agent_type := req.agent_type,
    capabilities := [], metadata := [], error := some e }

/-- The lazy agent-initialization step at the top of `chat_with_agent`:
construct the missing agent for the requested type ("search" /
"chat"); construction may raise. Returns the updated
`(chat_agent, search_agent)` globals. -/
def chatInit (req : ChatRequest) (ch sa : Option AgentBehavior)
    (mkChat mkSearch : Except String AgentBehavior) :
    Except String (Option AgentBehavior × Option AgentBehavior) :=
  if req.agent_type == "search" && sa.isNone then
    match mkSearch with
    | .ok a => .ok (ch, some a)
    | .error e => .error e
  else if req.agent_type == "chat" && ch.isNone then
    match mkChat with
    | .ok a => .ok (some a, sa)
    | .error e => .error e
  else .ok (ch, sa)

/-- The agent-selection line of `chat_with_agent`:
`agent = search_agent if request.agent_type == "search" else
chat_agent` (so any agent_type other than "search" selects the chat
agent, which may still be `None`). -/
def chatSelect (req : ChatRequest) (ch2 sa2 : Option AgentBehavior) :
    Option AgentBehavior :=
  if req.agent_type == "search" then sa2 else ch2

/-- `chat_with_agent` (`POST /chat`). Inputs: the request, the current
global `chat_agent` / `search_agent` (lazily constructed), and the
constructors `ChatAgent(config)` / `SearchAgent(config)` (which may
raise). The whole body sits in one `try`; `HTTPException(500)` raised
when the selected agent is still `None` is itself an `Exception`, so
the generic handler folds it into a success-`False` payload too. The
result pairs the HTTP outcome with the updated globals. -/
def chat_with_agent (req : ChatRequest) (ch sa : Option AgentBehavior)
    (mkChat mkSearch : Except String AgentBehavior) :
    Except HTTPErr ChatResponse × Option AgentBehavior × Option AgentBehavior :=
  match chatInit req ch sa mkChat mkSearch with
  | .error e => (.ok (failChat req e), ch, sa)
  | .ok (ch2, sa2) =>
    match chatSelect req ch2 sa2 with
    | none => (.ok (failChat req "500: Failed to initialize agent"), ch2, sa2)
    | some a =>
      match a.execPlain with
      | .error e => (.ok (failChat req e), ch2, sa2)
      | .ok r =>
        (.ok { success := r.success, response := r.content,
               agent_type := req.agent_type, capabilities := a.capabilities,
               metadata := r.metadata, error := r.error },
         ch2, sa2)

/-- The `except Exception` fallback body of `search_and_summarize`:
`SearchResponse(success=False, query=..., summary="", sources_count=0,
error=str(e))`. -/
def failSearch (req : SearchRequest) (e : String) : SearchResponse :=
  { success := false, query := req.query, summary := "",
    search_results := none, sources_count := 0, error := some e }

/-- `result.metadata.get("tools_used", 0)` fed into the integer field
`sources_count`: absent means 0, a number is passed through, any other
value fails `SearchResponse` validation inside the `try` (so it is
caught like every other exception). -/
def toolsUsedCount (m : List (String × Val)) : Except String ℚ :=
  match Record.get m "tools_used" with
  | none => .ok 0
  | some (.num n) => .ok n
  | some _ => .error "validation error for sources_count"

/-- The lazy `SearchAgent` construction at the top of
`search_and_summarize`: reuse the global if present, otherwise
construct (which may raise). -/
def searchInit (sa : Option AgentBehavior)
    (mkSearch : Except String AgentBehavior) : Except String AgentBehavior :=
  match sa with
  | some a => .ok a
  | none => mkSearch

/-- `search_and_summarize` (`POST /search`): lazily construct the
search agent, execute with tools, and map the reported result to a
`SearchResponse`; every raise inside the `try` becomes the
success-`False` payload. Pairs the HTTP outcome with the updated
global `search_agent`. -/
def search_and_summarize (req : SearchRequest) (sa : Option AgentBehavior)
    (mkSearch : Except String AgentBehavior) :
    Except HTTPErr SearchResponse × Option AgentBehavior :=
  match searchInit sa mkSearch with
  | .error e => (.ok (failSearch req e), sa)
  | .ok a =>
    match a.execTools with
    | .error e => (.ok (failSearch req e), some a)
    | .ok r =>
      if r.success then
        match toolsUsedCount r.metadata with
        | .ok n =>
          (.ok { success := true, query := req.query, summary := r.content,
                 search_results := some r.metadata, sources_count := n,
                 error := none }, some a)
        | .error e => (.ok (failSearch req e), some a)
      else
        (.ok { success := false, query := req.query, summary := "",
               search_results := none, sources_count := 0,
               error := r.error }, some a)

/-! ### Helper lemmas about the store primitives -/

/-- `_matches_query` succeeds exactly when every query field is bound in
the item to an equal value. -/
theorem matchesQuery_iff (r q : Record) :
    matchesQuery r q = true ↔ ∀ k v, (k, v) ∈ q → Record.get r k = some v := by
  unfold matchesQuery
  rw [List.all_eq_true]
  constructor
  · intro h k v hkv
    have hx := h (k, v) hkv
    cases hg : Record.get r k with
    | none => rw [hg] at hx; simp at hx
    | some v' =>
      rw [hg] at hx
      simp only [beq_iff_eq] at hx
      rw [hx]
  · intro h kv hkv
    have hx := h kv.1 kv.2 (by simpa using hkv)
    rw [hx]
    simp

/-- Specialization to a one-field query. -/
theorem matchesQuery_singleton (r : Record) (k : String) (v : Val) :
    matchesQuery r [(k, v)] = true ↔ Record.get r k = some v := by
  rw [matchesQuery_iff]
  constructor
  · intro h; exact h k v (by simp)
  · intro h k' v' hm
    simp only [List.mem_singleton, Prod.mk.injEq] at hm
    rw [hm.1, hm.2]
    exact h

/-- `find?` is the head of `filter`. -/
theorem find?_eq_head?_filter {α : Type} (p : α → Bool) (l : List α) :
    l.find? p = (l.filter p).head? := by
  induction l with
  | nil => rfl
  | cons a l ih =>
    by_cases h : p a = true
    · rw [List.find?_cons_of_pos _ h, List.filter_cons_of_pos h]
      simp
    · have h' : p a = false := by simpa using h
      rw [List.find?_cons_of_neg _ (by simp [h']), List.filter_cons_of_neg (by simp [h'])]
      exact ih

/-- The empty query matches everything, so `count_documents({})` is the
collection size. -/
theorem count_documents_empty_query (data : List Record) :
    InMemoryCollection.count_documents data (some []) = data.length := by
  unfold InMemoryCollection.count_documents matchesQuery
  simp

/-- `set_collection` then `get_collection` on the same name. -/
theorem get_set_same (db : InMemoryDB) (c : CollName) (l : List Record) :
    (db.set_collection c l).get_collection c = l := by
  cases c <;> rfl

/-- `set_collection` leaves the other collections untouched. -/
theorem get_set_other (db : InMemoryDB) (c c' : CollName) (l : List Record)
    (h : c' ≠ c) : (db.set_collection c l).get_collection c' = db.get_collection c' := by
  cases c <;> cases c' <;>
    simp_all [InMemoryDB.set_collection, InMemoryDB.get_collection]

/-! ### Claim theorems -/

/-- C6: `find` returns exactly the records on which every filter field
is present with an equal value (an absent field is a non-match, not an
error), as a subsequence of the backing list (insertion order
preserved); `find_one` returns the first such record, or `None` when
nothing matches. -/
theorem find_find_one_semantics (data : List Record) (query : Record) :
    (InMemoryCollection.find data (some query)).Sublist data ∧
    (∀ r, r ∈ data →
      (r ∈ InMemoryCollection.find data (some query) ↔
        ∀ k v, (k, v) ∈ query → Record.get r k = some v)) ∧
    InMemoryCollection.find_one data query =
      (InMemoryCollection.find data (some query)).head? := by
  refine ⟨?_, ?_, ?_⟩
  · exact List.filter_sublist data
  · intro r hr
    unfold InMemoryCollection.find
    rw [List.mem_filter]
    constructor
    · intro h
      exact (matchesQuery_iff r query).mp h.2
    · intro h
      exact ⟨hr, (matchesQuery_iff r query).mpr h⟩
  · unfold InMemoryCollection.find_one InMemoryCollection.find
    exact find?_eq_head?_filter _ data

/-- C6 witness: a two-record collection filtered on one field — the
matching record is in `find`'s result, field lookup agrees, and
`find_one` is the head of `find`. -/
theorem find_find_one_semantics_witness :
    [("id", Val.str "a"), ("available", Val.bool true)] ∈
      InMemoryCollection.find
        [[("id", Val.str "b")], [("id", Val.str "a"), ("available", Val.bool true)]]
        (some [("available", Val.bool true)]) ∧
    InMemoryCollection.find_one
        [[("id", Val.str "b")], [("id", Val.str "a"), ("available", Val.bool true)]]
        [("available", Val.bool true)] =
      some [("id", Val.str "a"), ("available", Val.bool true)] := by
  have h := find_find_one_semantics
    [[("id", Val.str "b")], [("id", Val.str "a"), ("available", Val.bool true)]]
    [("available", Val.bool true)]
  refine ⟨(h.2.1 [("id", Val.str "a"), ("available", Val.bool true)] (by decide)).mpr
    ?_, ?_⟩
  · intro k v hkv
    simp only [List.mem_singleton, Prod.mk.injEq] at hkv
    rw [hkv.1, hkv.2]
    decide
  · rw [h.2.2]
    decide

/-- C7 counterexample: the claim says `to_list` truncates to every
given limit, but Python's `if length` treats the limit 0 as absent: on
a one-record cursor, `to_list(0)` returns the record instead of the
empty prefix. -/
theorem to_list_zero_cex :
    InMemoryCursor.to_list [[("id", Val.str "x")]] (some 0) ≠
      List.take 0 [[("id", Val.str "x")]] := by
  decide

/-- C7 (amended): `to_list` truncates to the first `limit` records for
every nonzero limit; with no limit, or with limit 0 (falsy in Python),
it returns all of the cursor's records. -/
theorem to_list_truncates (data : List Record) (n : Nat) :
    (n ≠ 0 → InMemoryCursor.to_list data (some n) = data.take n) ∧
    InMemoryCursor.to_list data none = data ∧
    InMemoryCursor.to_list data (some 0) = data := by
  refine ⟨?_, rfl, rfl⟩
  intro hn
  unfold InMemoryCursor.to_list
  simp [hn]

/-- C7 witness: a nonzero limit (2) truncates a three-record cursor to
its first two records. -/
theorem to_list_truncates_witness :
    InMemoryCursor.to_list [[("id", Val.str "a")], [("id", Val.str "b")],
        [("id", Val.str "c")]] (some 2) =
      List.take 2 [[("id", Val.str "a")], [("id", Val.str "b")],
        [("id", Val.str "c")]] :=
  (to_list_truncates [[("id", Val.str "a")], [("id", Val.str "b")],
    [("id", Val.str "c")]] 2).1 (by decide)

/-- C9: `insert_one` appends its document to the end of the target
collection with no duplicate-id check and returns `document.get('id')`;
`insert_many` appends all documents in order and returns their ids in
order; previously stored records — in the target collection and in
every other collection — are unchanged and keep their positions. -/
theorem insert_appends_and_frames (db : InMemoryDB) (c : CollName)
    (doc : Record) (docs : List Record) :
    ((db.insert_one c doc).1.get_collection c = db.get_collection c ++ [doc]) ∧
    ((db.insert_one c doc).2 = doc.get "id") ∧
    (∀ c', c' ≠ c → (db.insert_one c doc).1.get_collection c' = db.get_collection c') ∧
    (∀ i, i < (db.get_collection c).length →
      ((db.insert_one c doc).1.get_collection c)[i]? = (db.get_collection c)[i]?) ∧
    ((db.insert_many c docs).1.get_collection c = db.get_collection c ++ docs) ∧
    ((db.insert_many c docs).2 = docs.map (fun d => d.get "id")) ∧
    (∀ c', c' ≠ c → (db.insert_many c docs).1.get_collection c' = db.get_collection c') ∧
    (∀ i, i < (db.get_collection c).length →
      ((db.insert_many c docs).1.get_collection c)[i]? = (db.get_collection c)[i]?) := by
  unfold InMemoryDB.insert_one InMemoryDB.insert_many
  refine ⟨get_set_same db c _, rfl, ?_, ?_, get_set_same db c _, rfl, ?_, ?_⟩
  · intro c' hc
    exact get_set_other db c c' _ hc
  · intro i hi
    rw [get_set_same db c _]
    exact List.getElem?_append_left hi
  · intro c' hc
    exact get_set_other db c c' _ hc
  · intro i hi
    rw [get_set_same db c _]
    exact List.getElem?_append_left hi

/-- C9 witness: inserting into `orders` of a concrete store appends,
returns the document's id, leaves `menu` untouched, and position 0 of
`orders` is preserved. -/
theorem insert_appends_and_frames_witness :
    ((InMemoryDB.insert_one ⟨[[("id", Val.str "m")]], [[("id", Val.str "o1")]], []⟩
        CollName.orders [("id", Val.str "o2")]).1.get_collection CollName.orders =
      [[("id", Val.str "o1")]] ++ [[("id", Val.str "o2")]]) ∧
    ((InMemoryDB.insert_one ⟨[[("id", Val.str "m")]], [[("id", Val.str "o1")]], []⟩
        CollName.orders [("id", Val.str "o2")]).1.get_collection CollName.menu =
      [[("id", Val.str "m")]]) ∧
    ((InMemoryDB.insert_one ⟨[[("id", Val.str "m")]], [[("id", Val.str "o1")]], []⟩
        CollName.orders [("id", Val.str "o2")]).1.get_collection CollName.orders)[0]? =
      some [("id", Val.str "o1")] := by
  have h := insert_appends_and_frames ⟨[[("id", Val.str "m")]],
    [[("id", Val.str "o1")]], []⟩ CollName.orders [("id", Val.str "o2")] []
  refine ⟨h.1, h.2.2.1 CollName.menu (by decide), ?_⟩
  rw [h.2.2.2.1 0 (by decide)]
  decide

/-- `find?` skips a prefix in which it finds nothing. -/
theorem find?_append_of_none {α : Type} (p : α → Bool) (l1 l2 : List α)
    (h : l1.find? p = none) : (l1 ++ l2).find? p = l2.find? p := by
  rw [List.find?_append, h]
  rfl

/-- C3: startup seeding is idempotent — a non-empty menu collection is
left exactly as it is, and an empty one receives exactly the fixed
five-record catalog once, with the other collections untouched. -/
theorem startup_seeding_idempotent (db : InMemoryDB) (i1 i2 i3 i4 i5 : String) :
    (db.menu ≠ [] → startup_event db i1 i2 i3 i4 i5 = db) ∧
    (db.menu = [] →
      (startup_event db i1 i2 i3 i4 i5).menu = sample_menu i1 i2 i3 i4 i5 ∧
      (sample_menu i1 i2 i3 i4 i5).length = 5 ∧
      (startup_event db i1 i2 i3 i4 i5).orders = db.orders ∧
      (startup_event db i1 i2 i3 i4 i5).status_checks = db.status_checks) := by
  unfold startup_event
  rw [count_documents_empty_query]
  constructor
  · intro h
    rw [if_neg (by simpa using h)]
  · intro h
    rw [if_pos (by simp [h])]
    refine ⟨?_, rfl, rfl, rfl⟩
    show db.menu ++ sample_menu i1 i2 i3 i4 i5 = sample_menu i1 i2 i3 i4 i5
    rw [h, List.nil_append]

/-- C3 witness: seeding an empty store inserts the five-item catalog
and nothing else. -/
theorem startup_seeding_idempotent_witness :
    (startup_event ⟨[], [], []⟩ "a" "b" "c" "d" "e").menu =
      sample_menu "a" "b" "c" "d" "e" ∧
    (sample_menu "a" "b" "c" "d" "e").length = 5 ∧
    (startup_event ⟨[], [], []⟩ "a" "b" "c" "d" "e").orders = [] ∧
    (startup_event ⟨[], [], []⟩ "a" "b" "c" "d" "e").status_checks = [] :=
  (startup_seeding_idempotent ⟨[], [], []⟩ "a" "b" "c" "d" "e").2 rfl

/-- C1: a successfully created order snapshots the referenced
(available) menu item: its `total_price` is the item's price times the
requested quantity, its `status` is `"pending"`, and its `coffee_name`
is the item's name. -/
theorem order_snapshot_correct (db : InMemoryDB) (newId : String) (ts : Val)
    (oc : OrderCreate) (order : Record) (db2 : InMemoryDB)
    (h : create_order db newId ts oc = (.ok order, db2)) :
    ∃ item p nm,
      InMemoryCollection.find_one db.menu
        [("id", Val.str oc.coffee_id), ("available", Val.bool true)] = some item ∧
      Record.get item "price" = some (Val.num p) ∧
      Record.get item "name" = some (Val.str nm) ∧
      Record.get order "total_price" = some (Val.num (p * (oc.quantity : ℚ))) ∧
      Record.get order "status" = some (Val.str "pending") ∧
      Record.get order "coffee_name" = some (Val.str nm) := by
  unfold create_order at h
  split at h
  · simp at h
  · rename_i item hf
    split at h
    · rename_i p nm hp hn
      rw [Prod.mk.injEq, Except.ok.injEq] at h
      obtain ⟨h1, h2⟩ := h
      subst h1
      exact ⟨item, p, nm, hf, hp, hn, rfl, rfl, rfl⟩
    · simp at h

/-- C1 witness: one available 4-per-cup item, quantity 2 — the created
order carries `total_price = 4 * 2`, status `"pending"`, and the item's
name. -/
theorem order_snapshot_correct_witness :
    ∃ item p nm,
      InMemoryCollection.find_one
        [[("id", Val.str "c1"), ("name", Val.str "Mocha"),
          ("price", Val.num 4), ("available", Val.bool true)]]
        [("id", Val.str "c1"), ("available", Val.bool true)] = some item ∧
      Record.get item "price" = some (Val.num p) ∧
      Record.get item "name" = some (Val.str nm) ∧
      Record.get [("id", Val.str "o1"), ("customer_name", Val.str "A"),
        ("coffee_id", Val.str "c1"), ("coffee_name", Val.str "Mocha"),
        ("quantity", Val.num ((2 : ℤ) : ℚ)),
        ("total_price", Val.num ((4 : ℚ) * ((2 : ℤ) : ℚ))),
        ("timestamp", Val.null), ("status", Val.str "pending")] "total_price" =
        some (Val.num (p * ((2 : ℤ) : ℚ))) ∧
      Record.get [("id", Val.str "o1"), ("customer_name", Val.str "A"),
        ("coffee_id", Val.str "c1"), ("coffee_name", Val.str "Mocha"),
        ("quantity", Val.num ((2 : ℤ) : ℚ)),
        ("total_price", Val.num ((4 : ℚ) * ((2 : ℤ) : ℚ))),
        ("timestamp", Val.null), ("status", Val.str "pending")] "status" =
        some (Val.str "pending") ∧
      Record.get [("id", Val.str "o1"), ("customer_name", Val.str "A"),
        ("coffee_id", Val.str "c1"), ("coffee_name", Val.str "Mocha"),
        ("quantity", Val.num ((2 : ℤ) : ℚ)),
        ("total_price", Val.num ((4 : ℚ) * ((2 : ℤ) : ℚ))),
        ("timestamp", Val.null), ("status", Val.str "pending")] "coffee_name" =
        some (Val.str nm) :=
  order_snapshot_correct
    ⟨[[("id", Val.str "c1"), ("name", Val.str "Mocha"),
       ("price", Val.num 4), ("available", Val.bool true)]], [], []⟩
    "o1" Val.null ⟨"A", "c1", 2⟩
    [("id", Val.str "o1"), ("customer_name", Val.str "A"),
     ("coffee_id", Val.str "c1"), ("coffee_name", Val.str "Mocha"),
     ("quantity", Val.num ((2 : ℤ) : ℚ)),
     ("total_price", Val.num ((4 : ℚ) * ((2 : ℤ) : ℚ))),
     ("timestamp", Val.null), ("status", Val.str "pending")]
    ⟨[[("id", Val.str "c1"), ("name", Val.str "Mocha"),
       ("price", Val.num 4), ("available", Val.bool true)]],
     [[("id", Val.str "o1"), ("customer_name", Val.str "A"),
       ("coffee_id", Val.str "c1"), ("coffee_name", Val.str "Mocha"),
       ("quantity", Val.num ((2 : ℤ) : ℚ)),
       ("total_price", Val.num ((4 : ℚ) * ((2 : ℤ) : ℚ))),
       ("timestamp", Val.null), ("status", Val.str "pending")]], []⟩
    rfl

/-- C2: when no menu record has the requested id together with
`available == True` (missing item, or present but unavailable), order
creation returns the 404 and leaves the store — in particular the
orders collection and its count — exactly unchanged. -/
theorem order_notfound_no_write (db : InMemoryDB) (newId : String) (ts : Val)
    (oc : OrderCreate)
    (h : ∀ r ∈ db.menu, ¬(Record.get r "id" = some (Val.str oc.coffee_id) ∧
        Record.get r "available" = some (Val.bool true))) :
    create_order db newId ts oc =
      (.error (.notFound "Coffee item not found or unavailable"), db) := by
  have hf : InMemoryCollection.find_one db.menu
      [("id", Val.str oc.coffee_id), ("available", Val.bool true)] = none := by
    unfold InMemoryCollection.find_one
    rw [List.find?_eq_none]
    intro r hr hm
    have hs := (matchesQuery_iff r _).mp hm
    exact h r hr ⟨hs "id" _ (by simp), hs "available" _ (by simp)⟩
  unfold create_order
  rw [hf]

/-- C2 witness: the only menu record with the requested id is
unavailable — creation 404s and the store is unchanged. -/
theorem order_notfound_no_write_witness :
    create_order ⟨[[("id", Val.str "c1"), ("available", Val.bool false)]], [], []⟩
        "o1" Val.null ⟨"A", "c1", 1⟩ =
      (.error (.notFound "Coffee item not found or unavailable"),
       ⟨[[("id", Val.str "c1"), ("available", Val.bool false)]], [], []⟩) :=
  order_notfound_no_write
    ⟨[[("id", Val.str "c1"), ("available", Val.bool false)]], [], []⟩
    "o1" Val.null ⟨"A", "c1", 1⟩ (by decide)

/-- Appending a record whose id is fresh for the collection makes
`find_one` by that id return exactly the appended record. -/
theorem find_one_append_fresh (data : List Record) (r : Record) (v : Val)
    (hn : ∀ x ∈ data, Record.get x "id" ≠ some v)
    (hr : Record.get r "id" = some v) :
    InMemoryCollection.find_one (data ++ [r]) [("id", v)] = some r := by
  unfold InMemoryCollection.find_one
  rw [find?_append_of_none _ _ _ (by
    rw [List.find?_eq_none]
    intro x hx hm
    exact hn x hx ((matchesQuery_singleton x "id" v).mp hm))]
  have hml : matchesQuery r [("id", v)] = true :=
    (matchesQuery_singleton r "id" v).mpr hr
  simp [List.find?_cons, hml]

/-- Fetching right after appending an order with a fresh id returns that
very record. -/
theorem get_order_appended (db0 : InMemoryDB) (ord : Record) (newId : String)
    (hfresh : ∀ r ∈ db0.orders, Record.get r "id" ≠ some (Val.str newId))
    (hid : Record.get ord "id" = some (Val.str newId)) :
    get_order (db0.insert_one .orders ord).1 newId = .ok ord := by
  unfold get_order
  have horders : (db0.insert_one CollName.orders ord).1.orders = db0.orders ++ [ord] := rfl
  rw [horders, find_one_append_fresh db0.orders ord (Val.str newId) hfresh hid]

/-- C4: after a successful creation whose generated id is fresh (no
stored order already carries it — what `uuid4` provides), an immediate
`GET /orders/{id}` with the returned id yields a record identical in
id, customer_name, coffee_id, coffee_name, quantity and total_price. -/
theorem create_then_get_roundtrip (db : InMemoryDB) (newId : String) (ts : Val)
    (oc : OrderCreate) (order : Record) (db2 : InMemoryDB)
    (h : create_order db newId ts oc = (.ok order, db2))
    (hfresh : ∀ r ∈ db.orders, Record.get r "id" ≠ some (Val.str newId)) :
    ∃ fetched, get_order db2 newId = .ok fetched ∧
      Record.get fetched "id" = Record.get order "id" ∧
      Record.get fetched "customer_name" = Record.get order "customer_name" ∧
      Record.get fetched "coffee_id" = Record.get order "coffee_id" ∧
      Record.get fetched "coffee_name" = Record.get order "coffee_name" ∧
      Record.get fetched "quantity" = Record.get order "quantity" ∧
      Record.get fetched "total_price" = Record.get order "total_price" := by
  unfold create_order at h
  split at h
  · simp at h
  · rename_i item hf
    split at h
    · rename_i p nm hp hn
      rw [Prod.mk.injEq, Except.ok.injEq] at h
      obtain ⟨h1, h2⟩ := h
      subst h1
      subst h2
      exact ⟨_, get_order_appended db _ newId hfresh rfl,
        rfl, rfl, rfl, rfl, rfl, rfl⟩
    · simp at h

/-- C4 witness: create on a store with no prior orders, then fetch by
the returned id — the same record comes back. -/
theorem create_then_get_roundtrip_witness :
    ∃ fetched,
      get_order
        ⟨[[("id", Val.str "c1"), ("name", Val.str "Mocha"),
           ("price", Val.num 4), ("available", Val.bool true)]],
         [[("id", Val.str "o1"), ("customer_name", Val.str "A"),
           ("coffee_id", Val.str "c1"), ("coffee_name", Val.str "Mocha"),
           ("quantity", Val.num ((2 : ℤ) : ℚ)),
           ("total_price", Val.num ((4 : ℚ) * ((2 : ℤ) : ℚ))),
           ("timestamp", Val.null), ("status", Val.str "pending")]], []⟩
        "o1" = .ok fetched ∧
      Record.get fetched "id" =
        Record.get [("id", Val.str "o1"), ("customer_name", Val.str "A"),
          ("coffee_id", Val.str "c1"), ("coffee_name", Val.str "Mocha"),
          ("quantity", Val.num ((2 : ℤ) : ℚ)),
          ("total_price", Val.num ((4 : ℚ) * ((2 : ℤ) : ℚ))),
          ("timestamp", Val.null), ("status", Val.str "pending")] "id" ∧
      Record.get fetched "customer_name" =
        Record.get [("id", Val.str "o1"), ("customer_name", Val.str "A"),
          ("coffee_id", Val.str "c1"), ("coffee_name", Val.str "Mocha"),
          ("quantity", Val.num ((2 : ℤ) : ℚ)),
          ("total_price", Val.num ((4 : ℚ) * ((2 : ℤ) : ℚ))),
          ("timestamp", Val.null), ("status", Val.str "pending")] "customer_name" ∧
      Record.get fetched "coffee_id" =
        Record.get [("id", Val.str "o1"), ("customer_name", Val.str "A"),
          ("coffee_id", Val.str "c1"), ("coffee_name", Val.str "Mocha"),
          ("quantity", Val.num ((2 : ℤ) : ℚ)),
          ("total_price", Val.num ((4 : ℚ) * ((2 : ℤ) : ℚ))),
          ("timestamp", Val.null), ("status", Val.str "pending")] "coffee_id" ∧
      Record.get fetched "coffee_name" =
        Record.get [("id", Val.str "o1"), ("customer_name", Val.str "A"),
          ("coffee_id", Val.str "c1"), ("coffee_name", Val.str "Mocha"),
          ("quantity", Val.num ((2 : ℤ) : ℚ)),
          ("total_price", Val.num ((4 : ℚ) * ((2 : ℤ) : ℚ))),
          ("timestamp", Val.null), ("status", Val.str "pending")] "coffee_name" ∧
      Record.get fetched "quantity" =
        Record.get [("id", Val.str "o1"), ("customer_name", Val.str "A"),
          ("coffee_id", Val.str "c1"), ("coffee_name", Val.str "Mocha"),
          ("quantity", Val.num ((2 : ℤ) : ℚ)),
          ("total_price", Val.num ((4 : ℚ) * ((2 : ℤ) : ℚ))),
          ("timestamp", Val.null), ("status", Val.str "pending")] "quantity" ∧
      Record.get fetched "total_price" =
        Record.get [("id", Val.str "o1"), ("customer_name", Val.str "A"),
          ("coffee_id", Val.str "c1"), ("coffee_name", Val.str "Mocha"),
          ("quantity", Val.num ((2 : ℤ) : ℚ)),
          ("total_price", Val.num ((4 : ℚ) * ((2 : ℤ) : ℚ))),
          ("timestamp", Val.null), ("status", Val.str "pending")] "total_price" :=
  create_then_get_roundtrip
    ⟨[[("id", Val.str "c1"), ("name", Val.str "Mocha"),
       ("price", Val.num 4), ("available", Val.bool true)]], [], []⟩
    "o1" Val.null ⟨"A", "c1", 2⟩
    [("id", Val.str "o1"), ("customer_name", Val.str "A"),
     ("coffee_id", Val.str "c1"), ("coffee_name", Val.str "Mocha"),
     ("quantity", Val.num ((2 : ℤ) : ℚ)),
     ("total_price", Val.num ((4 : ℚ) * ((2 : ℤ) : ℚ))),
     ("timestamp", Val.null), ("status", Val.str "pending")]
    ⟨[[("id", Val.str "c1"), ("name", Val.str "Mocha"),
       ("price", Val.num 4), ("available", Val.bool true)]],
     [[("id", Val.str "o1"), ("customer_name", Val.str "A"),
       ("coffee_id", Val.str "c1"), ("coffee_name", Val.str "Mocha"),
       ("quantity", Val.num ((2 : ℤ) : ℚ)),
       ("total_price", Val.num ((4 : ℚ) * ((2 : ℤ) : ℚ))),
       ("timestamp", Val.null), ("status", Val.str "pending")]], []⟩
    rfl (by simp)

/-- C8: once the body validates, `POST /chat` and `POST /search` always
answer HTTP 200, and every failure of the agent delegate is folded
into the structured payload with `success = False` and the `error`
field set. The conjuncts case only on the handler's own steps and so
cover every request: agent construction raising (lazy init, any
agent_type), the selected agent still being `None` (the internal
`HTTPException(500)`, itself caught by `except Exception`), the
selected agent's `execute` raising, and the delegate reporting
`success = False` (whose own `error` field is passed through). -/
theorem chat_search_failures_folded (req : ChatRequest)
    (ch sa : Option AgentBehavior) (mkC mkS : Except String AgentBehavior)
    (sreq : SearchRequest) (sa2 : Option AgentBehavior)
    (mkS2 : Except String AgentBehavior) :
    (∃ resp, (chat_with_agent req ch sa mkC mkS).1 = .ok resp) ∧
    (∀ e, chatInit req ch sa mkC mkS = .error e →
      (chat_with_agent req ch sa mkC mkS).1 = .ok (failChat req e)) ∧
    (∀ ch2 sa2x, chatInit req ch sa mkC mkS = .ok (ch2, sa2x) →
      (chatSelect req ch2 sa2x = none →
        (chat_with_agent req ch sa mkC mkS).1 =
          .ok (failChat req "500: Failed to initialize agent")) ∧
      (∀ a msg, chatSelect req ch2 sa2x = some a → a.execPlain = .error msg →
        (chat_with_agent req ch sa mkC mkS).1 = .ok (failChat req msg)) ∧
      (∀ a r, chatSelect req ch2 sa2x = some a → a.execPlain = .ok r →
        r.success = false →
        ∃ resp, (chat_with_agent req ch sa mkC mkS).1 = .ok resp ∧
          resp.success = false ∧ resp.error = r.error)) ∧
    (∃ resp, (search_and_summarize sreq sa2 mkS2).1 = .ok resp) ∧
    (∀ e, searchInit sa2 mkS2 = .error e →
      (search_and_summarize sreq sa2 mkS2).1 = .ok (failSearch sreq e)) ∧
    (∀ a msg, searchInit sa2 mkS2 = .ok a → a.execTools = .error msg →
      (search_and_summarize sreq sa2 mkS2).1 = .ok (failSearch sreq msg)) ∧
    (∀ a r, searchInit sa2 mkS2 = .ok a → a.execTools = .ok r →
      r.success = false →
      ∃ resp, (search_and_summarize sreq sa2 mkS2).1 = .ok resp ∧
        resp.success = false ∧ resp.error = r.error) := by
  refine ⟨?_, ?_, ?_, ?_, ?_, ?_, ?_⟩
  · unfold chat_with_agent
    split
    · exact ⟨_, rfl⟩
    · split
      · exact ⟨_, rfl⟩
      · split
        · exact ⟨_, rfl⟩
        · exact ⟨_, rfl⟩
  · intro e hce
    unfold chat_with_agent
    simp [hce]
  · intro ch2 sa2x hok
    refine ⟨?_, ?_, ?_⟩
    · intro hsel
      unfold chat_with_agent
      simp [hok, hsel]
    · intro a msg hsel he
      unfold chat_with_agent
      simp [hok, hsel, he]
    · intro a r hsel he hs
      unfold chat_with_agent
      simp [hok, hsel, he, hs]
  · unfold search_and_summarize
    split
    · exact ⟨_, rfl⟩
    · split
      · exact ⟨_, rfl⟩
      · split
        · split
          · exact ⟨_, rfl⟩
          · exact ⟨_, rfl⟩
        · exact ⟨_, rfl⟩
  · intro e hse
    unfold search_and_summarize
    simp [hse]
  · intro a msg hsa he
    unfold search_and_summarize
    simp [hsa, he]
  · intro a r hsa he hs
    unfold search_and_summarize
    simp [hsa, he, hs]

/-- C8 witness: a `/chat` request for the (not yet constructed) search
agent whose lazy construction raises "boom" — the endpoint answers 200
with the folded success-`False` payload carrying the exception text. -/
theorem chat_search_failures_folded_witness :
    (chat_with_agent ⟨"hi", "search", none⟩ none none
        (Except.error "e1") (Except.error "boom")).1 =
      .ok (failChat ⟨"hi", "search", none⟩ "boom") :=
  (chat_search_failures_folded ⟨"hi", "search", none⟩ none none
      (Except.error "e1") (Except.error "boom") ⟨"q", 5⟩ none
      (Except.error "e3")).2.1 "boom" rfl
